import Mathlib

/-!
Shallow embedding of the flasheng-backend-server core (job pipeline
orchestrator, credit ledger, payment reconciliation, webhook and routing
layer) together with proofs of the specification claims.

Each definition is annotated with the Python source location it embeds.
Database commits are modelled as pure state transformations; exceptions
are modelled with `Except`; every external call outcome is a parameter.
-/

namespace FlashResume

/-! ## Credit ledger (src/app/services/payment.py) -/

/-- A row of the `users` table (src/app/models/user.py:19-38): an id and a
plain integer credits column (timestamps elided). The model defines no
`linkedin_url` attribute: reading `user.linkedin_url`
(src/app/routers/resume.py:277) raises `AttributeError`, and nothing in
the registered app can set it (the user router is not registered,
src/app/main.py:106-109). -/
structure UserRec where
  id : String
  credits : Int
deriving DecidableEq, Repr

/-- The credit balance of `uid` as observed through a `select` on the users
table: the first row whose id matches, defaulting to 0 for an unseen user
(an unseen user is lazily created with balance 0,
src/app/services/payment.py:35-43). -/
def balanceOf (users : List UserRec) (uid : String) : Int :=
  match users.find? (fun u => u.id == uid) with
  | some u => u.credits
  | none => 0

/-- Embeds `PaymentService.get_or_create_user` (src/app/services/payment.py:35-43):
returns the user row, inserting a zero-credit row when the user is unseen.
Returns the (possibly extended) table together with the row. -/
def get_or_create_user (users : List UserRec) (uid : String) :
    List UserRec × UserRec :=
  match users.find? (fun u => u.id == uid) with
  | some u => (users, u)
  | none => (users ++ [⟨uid, 0⟩], ⟨uid, 0⟩)

/-- The committed effect of assigning `user.credits = c` on the row of
`uid` (SQLAlchemy persists the mutated attribute on commit). -/
def setCredits (users : List UserRec) (uid : String) (c : Int) :
    List UserRec :=
  users.map (fun u => if u.id == uid then { u with credits := c } else u)

/-- Embeds `PaymentService.deduct_credit` (src/app/services/payment.py:273-289):
get-or-create the user; if `user.credits < 1` return `False`, else
decrement by one, commit, return `True`. -/
def deduct_credit (users : List UserRec) (uid : String) :
    List UserRec × Bool :=
  let uc := get_or_create_user users uid
  if uc.2.credits < 1 then (uc.1, false)
  else (setCredits uc.1 uid (uc.2.credits - 1), true)

/-- Embeds `PaymentService._add_credits_for_payment`
(src/app/services/payment.py:221-228): get-or-create the owning user and
increment the balance by `credits_purchased`. -/
def add_credits_for_payment (users : List UserRec) (uid : String)
    (n : Int) : List UserRec :=
  let uc := get_or_create_user users uid
  setCredits uc.1 uid (uc.2.credits + n)

lemma find?_setCredits (users : List UserRec) (uid : String) (c : Int) :
    (setCredits users uid c).find? (fun u => u.id == uid) =
      (users.find? (fun u => u.id == uid)).map
        (fun u => { u with credits := c }) := by
  induction users with
  | nil => simp [setCredits]
  | cons a as ih =>
    by_cases h : a.id == uid
    · simp [setCredits, List.find?, h]
    · simp only [setCredits, List.map_cons] at *
      rw [if_neg (by simp_all)]
      rw [List.find?_cons_of_neg _ (by simp_all),
        List.find?_cons_of_neg _ (by simp_all)]
      exact ih

lemma balanceOf_setCredits_found (users : List UserRec) (uid : String)
    (u : UserRec) (c : Int)
    (h : users.find? (fun v => v.id == uid) = some u) :
    balanceOf (setCredits users uid c) uid = c := by
  simp [balanceOf, find?_setCredits, h]

lemma find?_append_of_none (users more : List UserRec) (uid : String)
    (h : users.find? (fun v => v.id == uid) = none) :
    (users ++ more).find? (fun v => v.id == uid) =
      more.find? (fun v => v.id == uid) := by
  induction users with
  | nil => simp
  | cons a as ih =>
    by_cases ha : a.id == uid
    · simp [List.find?, ha] at h
    · rw [List.cons_append, List.find?_cons_of_neg _ (by simp_all)]
      rw [List.find?_cons_of_neg _ (by simp_all)] at h
      exact ih h

/-- Balance effect of `_add_credits_for_payment`: the balance of the owning user
increases by exactly `n`. -/
lemma balanceOf_add_credits (users : List UserRec) (uid : String)
    (n : Int) :
    balanceOf (add_credits_for_payment users uid n) uid =
      balanceOf users uid + n := by
  unfold add_credits_for_payment get_or_create_user
  cases h : users.find? (fun v => v.id == uid) with
  | some u =>
    simp only
    rw [balanceOf_setCredits_found _ _ _ _ h]
    simp [balanceOf, h]
  | none =>
    simp only
    have hfind : (users ++ [(⟨uid, 0⟩ : UserRec)]).find?
        (fun v => v.id == uid) = some ⟨uid, 0⟩ := by
      rw [find?_append_of_none _ _ _ h]; simp [List.find?]
    rw [balanceOf_setCredits_found _ _ _ _ hfind]
    simp [balanceOf, h]

/-- C4 helper: balance effect of `deduct_credit`. -/
lemma deduct_credit_spec (users : List UserRec) (uid : String) :
    (1 ≤ balanceOf users uid →
      (deduct_credit users uid).2 = true ∧
      balanceOf (deduct_credit users uid).1 uid = balanceOf users uid - 1) ∧
    (balanceOf users uid < 1 →
      (deduct_credit users uid).2 = false ∧
      balanceOf (deduct_credit users uid).1 uid = balanceOf users uid) := by
  unfold deduct_credit get_or_create_user
  cases h : users.find? (fun v => v.id == uid) with
  | some u =>
    have hb : balanceOf users uid = u.credits := by simp [balanceOf, h]
    by_cases hc : u.credits < 1
    · rw [if_pos hc]
      exact ⟨fun hge => absurd hge (by omega), fun _ => ⟨rfl, rfl⟩⟩
    · rw [if_neg hc]
      refine ⟨fun _ => ⟨rfl, ?_⟩, fun hlt => absurd hlt (by omega)⟩
      rw [balanceOf_setCredits_found _ _ _ _ h, hb]
  | none =>
    have hb : balanceOf users uid = 0 := by simp [balanceOf, h]
    rw [if_pos (show ((⟨uid, 0⟩ : UserRec).credits : Int) < 1 by
      norm_num)]
    refine ⟨fun hge => absurd hge (by omega), fun _ => ⟨rfl, ?_⟩⟩
    show balanceOf (users ++ [⟨uid, 0⟩]) uid = balanceOf users uid
    simp only [balanceOf]
    rw [find?_append_of_none _ _ _ h, h]
    simp [List.find?]

/-- C4: `deduct_credit` decrements the balance by exactly 1 and returns
`true` when the balance is at least 1; otherwise it leaves the balance
unchanged and returns `false`; from a non-negative balance it never drives
the balance negative (src/app/services/payment.py:273-289). -/
theorem C4_deduct_credit (users : List UserRec) (uid : String) :
    (1 ≤ balanceOf users uid →
      (deduct_credit users uid).2 = true ∧
      balanceOf (deduct_credit users uid).1 uid = balanceOf users uid - 1) ∧
    (balanceOf users uid < 1 →
      (deduct_credit users uid).2 = false ∧
      balanceOf (deduct_credit users uid).1 uid = balanceOf users uid) ∧
    (0 ≤ balanceOf users uid →
      0 ≤ balanceOf (deduct_credit users uid).1 uid) := by
  obtain ⟨h1, h2⟩ := deduct_credit_spec users uid
  refine ⟨h1, h2, fun hge => ?_⟩
  by_cases hone : 1 ≤ balanceOf users uid
  · obtain ⟨-, he⟩ := h1 hone
    omega
  · obtain ⟨-, he⟩ := h2 (by omega)
    omega

/-- Witness for C4 at a concrete table: a user holding exactly one credit;
the deduction succeeds and the balance becomes 0. -/
theorem C4_deduct_credit_witness :
    (deduct_credit [⟨"u1", 1⟩] "u1").2 = true ∧
    balanceOf (deduct_credit [⟨"u1", 1⟩] "u1").1 "u1" = 1 - 1 :=
  (C4_deduct_credit [⟨"u1", 1⟩] "u1").1 (by decide)

/-! ## Payment reconciliation (src/app/services/payment.py) -/

/-- The `PaymentStatus` str-enum (src/app/models/user.py:12-16). -/
inductive PaymentStatus where
  | PENDING
  | PAID
  | EXPIRED
  | CANCELLED
deriving DecidableEq, Repr

/-- Evaluates `PaymentStatus(raw)` on a provider-reported status string: the str-enum
constructor succeeds only on the four member values and raises `ValueError`
otherwise (modelled as `none`). -/
def paymentStatusOfString (s : String) : Option PaymentStatus :=
  if s == "PENDING" then some .PENDING
  else if s == "PAID" then some .PAID
  else if s == "EXPIRED" then some .EXPIRED
  else if s == "CANCELLED" then some .CANCELLED
  else none

/-- A row of the `payments` table (src/app/models/user.py:41-67), restricted
to the fields the reconciliation logic reads. -/
structure PaymentRec where
  id : String
  user_id : String
  abacatepay_id : String
  amount_cents : Int
  credits_purchased : Int
  status : PaymentStatus
  br_code : String
  br_code_base64 : String
deriving DecidableEq, Repr

/-- Local state touched by reconciliation: one payment row and the users
table. -/
structure PayState where
  payment : PaymentRec
  users : List UserRec
deriving DecidableEq, Repr

/-- Result of a status poll: the state after any committed update, the
payment row returned to the caller, and whether the provider was called. -/
structure CheckResult where
  state : PayState
  returned : PaymentRec
  externalCall : Bool
deriving DecidableEq, Repr

/-- Outcome of the provider status call `client.pixQrCode.check` under
`asyncio.wait_for`: either a raised exception / timeout (`Except.error ()`)
or a raw status string. -/
def ProviderCheck := Except Unit String

/-- Embeds `PaymentService.check_payment_status` (src/app/services/payment.py:147-188)
for a payment already looked up. If the local status is `PAID`, return
immediately without any provider call. Otherwise call the provider: on
timeout or any exception return the current local state unchanged; on a
reported status, convert it to the enum (a `ValueError` on an unknown
string propagates, modelled by `Except.error`); if the status changed,
commit it, adding the purchased credits when the new status is `PAID`. -/
def check_payment_status (st : PayState) (provider : ProviderCheck) :
    Except String CheckResult :=
  if st.payment.status = .PAID then
    .ok ⟨st, st.payment, false⟩
  else
    match provider with
    | .error _ => .ok ⟨st, st.payment, true⟩
    | .ok raw =>
      match paymentStatusOfString raw with
      | none => .error (raw ++ " is not a valid PaymentStatus")
      | some new_status =>
        if new_status ≠ st.payment.status then
          let p := { st.payment with status := new_status }
          let users :=
            if new_status = .PAID then
              add_credits_for_payment st.users p.user_id p.credits_purchased
            else st.users
          .ok ⟨⟨p, users⟩, p, true⟩
        else .ok ⟨st, st.payment, true⟩

/-- Embeds `PaymentService.process_webhook_payment`
(src/app/services/payment.py:190-219) for a payment already looked up by
`abacatepay_id`: a no-op when the payment is already `PAID`; otherwise mark
it `PAID` and add the purchased credits to the owning user. -/
def process_webhook_payment (st : PayState) : PayState :=
  if st.payment.status = .PAID then st
  else
    let p := { st.payment with status := PaymentStatus.PAID }
    ⟨p, add_credits_for_payment st.users p.user_id p.credits_purchased⟩

/-- One observation of the payment: an active poll (carrying the answer of
the provider) or an inbound paid webhook for this payment. -/
inductive PayOp where
  | poll (provider : ProviderCheck)
  | webhook

/-- Effect of one observation on the local state. A poll that raises
(unknown provider status string) commits nothing. -/
def payStep (st : PayState) (op : PayOp) : PayState :=
  match op with
  | .webhook => process_webhook_payment st
  | .poll pr =>
    match check_payment_status st pr with
    | .ok r => r.state
    | .error _ => st

/-- A sequence of observations of the payment. -/
def payRun (st : PayState) (ops : List PayOp) : PayState :=
  ops.foldl payStep st

lemma payStep_user_fields (st : PayState) (op : PayOp) :
    (payStep st op).payment.user_id = st.payment.user_id ∧
    (payStep st op).payment.credits_purchased =
      st.payment.credits_purchased := by
  cases op with
  | webhook =>
    by_cases hp : st.payment.status = PaymentStatus.PAID <;>
      simp [payStep, process_webhook_payment, hp]
  | poll pr =>
    by_cases hp : st.payment.status = PaymentStatus.PAID
    · simp [payStep, check_payment_status, hp]
    · cases pr with
      | error e => simp [payStep, check_payment_status, hp]
      | ok raw =>
        cases hs : paymentStatusOfString raw with
        | none => simp [payStep, check_payment_status, hp, hs]
        | some ns =>
          by_cases hne : ns = st.payment.status <;>
            simp [payStep, check_payment_status, hp, hs, hne]

/-- Once `PAID`, no observation changes the state. -/
lemma payStep_of_paid (st : PayState) (op : PayOp)
    (h : st.payment.status = .PAID) : payStep st op = st := by
  cases op with
  | webhook => simp [payStep, process_webhook_payment, h]
  | poll pr => simp [payStep, check_payment_status, h]

/-- The balance invariant preserved by every observation: the owning
balance of the owning user has grown by the purchase amount exactly when the payment
has reached `PAID`. -/
lemma payStep_invariant (b : Int) (st : PayState)
    (hbal : balanceOf st.users st.payment.user_id =
      b + (if st.payment.status = .PAID then st.payment.credits_purchased
        else 0)) (op : PayOp) :
    balanceOf (payStep st op).users (payStep st op).payment.user_id =
      b + (if (payStep st op).payment.status = .PAID then
        (payStep st op).payment.credits_purchased else 0) := by
  by_cases hp : st.payment.status = .PAID
  · rw [payStep_of_paid st op hp]; exact hbal
  · rw [if_neg hp, add_zero] at hbal
    cases op with
    | webhook =>
      have hstep : payStep st PayOp.webhook =
          ⟨{ st.payment with status := PaymentStatus.PAID },
            add_credits_for_payment st.users st.payment.user_id
              st.payment.credits_purchased⟩ := by
        simp [payStep, process_webhook_payment, hp]
      rw [hstep]
      show balanceOf (add_credits_for_payment st.users st.payment.user_id
          st.payment.credits_purchased) st.payment.user_id =
        b + (if PaymentStatus.PAID = PaymentStatus.PAID then
          st.payment.credits_purchased else 0)
      rw [balanceOf_add_credits, hbal, if_pos rfl]
    | poll pr =>
      cases pr with
      | error e => simp [payStep, check_payment_status, hp, hbal]
      | ok raw =>
        cases hs : paymentStatusOfString raw with
        | none => simp [payStep, check_payment_status, hp, hs, hbal]
        | some ns =>
          by_cases hne : ns = st.payment.status
          · simp [payStep, check_payment_status, hp, hs, hne, hbal]
          · by_cases hpaid : ns = PaymentStatus.PAID
            · have hstep : payStep st (PayOp.poll (Except.ok raw)) =
                  ⟨{ st.payment with status := ns },
                    add_credits_for_payment st.users st.payment.user_id
                      st.payment.credits_purchased⟩ := by
                have hp2 : PaymentStatus.PAID ≠ st.payment.status :=
                  fun hcon => hp hcon.symm
                simp [payStep, check_payment_status, hp, hs, hne, hpaid,
                  hp2]
              rw [hstep]
              show balanceOf (add_credits_for_payment st.users
                  st.payment.user_id st.payment.credits_purchased)
                  st.payment.user_id =
                b + (if ns = PaymentStatus.PAID then
                  st.payment.credits_purchased else 0)
              rw [balanceOf_add_credits, hbal, if_pos hpaid]
            · simp [payStep, check_payment_status, hp, hs, hne, hpaid,
                hbal]

lemma payRun_invariant (b : Int) (ops : List PayOp) (st : PayState)
    (hbal : balanceOf st.users st.payment.user_id =
      b + (if st.payment.status = .PAID then st.payment.credits_purchased
        else 0)) :
    balanceOf (payRun st ops).users (payRun st ops).payment.user_id =
      b + (if (payRun st ops).payment.status = .PAID then
        (payRun st ops).payment.credits_purchased else 0) := by
  induction ops generalizing st with
  | nil => exact hbal
  | cons op rest ih =>
    exact ih (payStep st op) (payStep_invariant b st hbal op)

lemma payRun_user_fields (ops : List PayOp) (st : PayState) :
    (payRun st ops).payment.user_id = st.payment.user_id ∧
    (payRun st ops).payment.credits_purchased =
      st.payment.credits_purchased := by
  induction ops generalizing st with
  | nil => exact ⟨rfl, rfl⟩
  | cons op rest ih =>
    obtain ⟨h1, h2⟩ := payStep_user_fields st op
    obtain ⟨h3, h4⟩ := ih (payStep st op)
    exact ⟨h3.trans h1, h4.trans h2⟩

/-- C3: starting from a payment not yet locally `paid`, along any sequence
of polls and webhooks the balance of the owning user grows by
`credits_purchased` exactly when the payment has reached `PAID` (so the
credit-add happens exactly once, at the transition into `paid`); moreover
once locally `paid`, a status poll returns immediately with no external
call and no state change, and a replayed paid webhook is a no-op
(src/app/services/payment.py:147-219). -/
theorem C3_credit_add_exactly_once (st : PayState) (ops : List PayOp)
    (h : st.payment.status ≠ .PAID) :
    balanceOf (payRun st ops).users st.payment.user_id =
      balanceOf st.users st.payment.user_id +
        (if (payRun st ops).payment.status = .PAID then
          st.payment.credits_purchased else 0) ∧
    ((payRun st ops).payment.status = .PAID →
      (∀ pr, check_payment_status (payRun st ops) pr =
        .ok ⟨payRun st ops, (payRun st ops).payment, false⟩) ∧
      process_webhook_payment (payRun st ops) = payRun st ops) := by
  obtain ⟨hu, hc⟩ := payRun_user_fields ops st
  constructor
  · have := payRun_invariant (balanceOf st.users st.payment.user_id) ops st
      (by rw [if_neg h, add_zero])
    rw [hu, hc] at this
    exact this
  · intro hpaid
    exact ⟨fun pr => by simp [check_payment_status, hpaid],
      by simp [process_webhook_payment, hpaid]⟩

/-- Witness for C3: a pending payment of 3 credits for a user holding 5,
observed by a paid webhook and then a redundant poll and webhook replay;
the balance grows by the purchase amount exactly once. -/
theorem C3_credit_add_exactly_once_witness :
    balanceOf (payRun
        ⟨⟨"p1", "u1", "ab1", 1000, 3, .PENDING, "br", "b64"⟩,
          [⟨"u1", 5⟩]⟩
        [PayOp.webhook, PayOp.poll (Except.ok "PAID"), PayOp.webhook]).users
        "u1" =
      balanceOf [⟨"u1", 5⟩] "u1" +
        (if (payRun
            ⟨⟨"p1", "u1", "ab1", 1000, 3, .PENDING, "br", "b64"⟩,
              [⟨"u1", 5⟩]⟩
            [PayOp.webhook, PayOp.poll (Except.ok "PAID"),
              PayOp.webhook]).payment.status = .PAID then 3 else 0) :=
  (C3_credit_add_exactly_once
    ⟨⟨"p1", "u1", "ab1", 1000, 3, .PENDING, "br", "b64"⟩,
      [⟨"u1", 5⟩]⟩
    [PayOp.webhook, PayOp.poll (Except.ok "PAID"), PayOp.webhook]
    (by decide)).1

/-- C7: when the local status is not yet `paid` and the provider status
call times out or raises, `check_payment_status` returns the payment in
its last known local state, commits no state change, and does not raise
(src/app/services/payment.py:157-177). -/
theorem C7_status_check_degrades_to_no_change (st : PayState)
    (h : st.payment.status ≠ .PAID) :
    check_payment_status st (Except.error ()) =
      .ok ⟨st, st.payment, true⟩ := by
  simp [check_payment_status, h]

/-- Witness for C7 on a concrete pending payment. -/
theorem C7_status_check_degrades_to_no_change_witness :
    check_payment_status
        ⟨⟨"p1", "u1", "ab1", 1000, 3, .PENDING, "br", "b64"⟩,
          [⟨"u1", 5⟩]⟩ (Except.error ()) =
      .ok ⟨⟨⟨"p1", "u1", "ab1", 1000, 3, .PENDING, "br", "b64"⟩,
          [⟨"u1", 5⟩]⟩,
        ⟨"p1", "u1", "ab1", 1000, 3, .PENDING, "br", "b64"⟩, true⟩ :=
  C7_status_check_degrades_to_no_change
    ⟨⟨"p1", "u1", "ab1", 1000, 3, .PENDING, "br", "b64"⟩,
      [⟨"u1", 5⟩]⟩ (by decide)

/-! ## PIX creation (src/app/services/payment.py:55-145) -/

/-- The `CreditPlan` row (src/app/models/credit_plan.py), restricted to the fields
`create_pix_payment` reads. -/
structure CreditPlan where
  id : String
  name : String
  credits_amount : Int
  price_brl_cents : Int
  is_active : Bool
deriving DecidableEq, Repr

/-- Provider response of a successful `client.pixQrCode.create`. -/
structure PixData where
  id : String
  brcode : String
  brcode_base64 : String
deriving DecidableEq, Repr

/-- The request body sent to the provider
(src/app/services/payment.py:70-74). -/
structure PixRequest where
  amount : Int
  description : String
  expires_in : Nat
deriving DecidableEq, Repr

/-- Python character slice `s[:n]`. -/
def pyTruncate (s : String) (n : Nat) : String :=
  String.mk (s.toList.take n)

/-- The string `description = f"\x7bcredits\x7d credit(s) for Flash Resume"`
(src/app/services/payment.py:68). -/
def pixDescription (credits : Int) : String :=
  toString credits ++ " credit(s) for Flash Resume"

/-- The `data` dict built for the provider: amount in cents, description
truncated to 37 characters, expiry 3600 seconds
(src/app/services/payment.py:66-74). -/
def pixRequestData (plan : CreditPlan) : PixRequest :=
  ⟨plan.price_brl_cents, pyTruncate (pixDescription plan.credits_amount) 37,
    3600⟩

/-- Constant `PaymentService.ABACATE_TIMEOUT` (src/app/services/payment.py:17):
seconds given to `asyncio.wait_for` around every provider call. -/
def ABACATE_TIMEOUT : Nat := 15

/-- Constant `PaymentService.ABACATE_CREATE_RETRIES` (src/app/services/payment.py:18). -/
def ABACATE_CREATE_RETRIES : Nat := 2

/-- The list `range(1, ABACATE_CREATE_RETRIES + 2)` — the attempt numbers of the
creation retry loop (src/app/services/payment.py:78). -/
def pixAttemptIndices : List Nat :=
  List.range' 1 (ABACATE_CREATE_RETRIES + 1)

/-- The creation retry loop (src/app/services/payment.py:77-107): try the
provider on each attempt number; stop at the first success; after a failed
attempt that is not the last, sleep `2 ** (attempt - 1)` seconds. Returns
the final outcome (the error side carrying `last_error`) together with the
sleeps performed, in order. -/
def pixAttempts (outcomes : Nat → Except String PixData) :
    List Nat → Except String PixData × List Nat
  | [] => (.error "no attempts", [])
  | i :: rest =>
    match outcomes i with
    | .ok d => (.ok d, [])
    | .error e =>
      match rest with
      | [] => (.error e, [])
      | j :: rest2 =>
        let p := pixAttempts outcomes (j :: rest2)
        (p.1, 2 ^ (i - 1) :: p.2)

/-- The observable outcome of `create_pix_payment`: the provider request
(once built), the sleeps performed, the payments table after the call, and
the value returned or the exception raised. -/
structure PixCreateResult where
  request : Option PixRequest
  sleeps : List Nat
  db : List PaymentRec
  result : Except String PaymentRec
deriving Repr

/-- Embeds `PaymentService.create_pix_payment` (src/app/services/payment.py:55-145)
with the plan row already looked up (`none` models the `Plan not found`
raise), the provider outcome per attempt number as a parameter, and the
fresh payment row id as a parameter. A `Payment` row is inserted and
committed only after a successful provider call; when every attempt fails
a `ValueError` is raised and nothing is persisted. -/
def create_pix_payment (plan? : Option CreditPlan) (user_id newId : String)
    (outcomes : Nat → Except String PixData)
    (payments : List PaymentRec) : PixCreateResult :=
  match plan? with
  | none => ⟨none, [], payments, .error "Plan not found"⟩
  | some plan =>
    let data := pixRequestData plan
    let r := pixAttempts outcomes pixAttemptIndices
    match r.1 with
    | .error e =>
      ⟨some data, r.2, payments,
        .error ("Failed to create PIX QR Code after " ++
          toString (ABACATE_CREATE_RETRIES + 1) ++ " attempts: " ++ e)⟩
    | .ok pix =>
      let payment : PaymentRec :=
        ⟨newId, user_id, pix.id, plan.price_brl_cents, plan.credits_amount,
          .PENDING, pix.brcode, pix.brcode_base64⟩
      ⟨some data, r.2, payments ++ [payment], .ok payment⟩

/-- C6: the provider request carries the description truncated to a hard
37-character limit and a 3600-second expiry; each provider call runs under
the bounded 15s timeout; there are 3 total attempts; when all 3 fail the
sleeps between them are 1s then 2s, the caller receives a creation error,
and no Payment row is persisted; a failure followed by a success on the
second attempt retries after a 1s sleep and persists the payment
(src/app/services/payment.py:55-145). -/
theorem C6_pix_creation (plan : CreditPlan) (uid newId : String)
    (outcomes : Nat → Except String PixData)
    (payments : List PaymentRec) :
    (pixRequestData plan).description =
      pyTruncate (pixDescription plan.credits_amount) 37 ∧
    (pixRequestData plan).description.length ≤ 37 ∧
    (pixRequestData plan).expires_in = 3600 ∧
    ABACATE_TIMEOUT = 15 ∧
    pixAttemptIndices = [1, 2, 3] ∧
    (create_pix_payment (some plan) uid newId outcomes payments).request =
      some (pixRequestData plan) ∧
    (∀ e1 e2 e3, outcomes 1 = .error e1 → outcomes 2 = .error e2 →
      outcomes 3 = .error e3 →
      (create_pix_payment (some plan) uid newId outcomes payments).db =
          payments ∧
        (create_pix_payment (some plan) uid newId outcomes
          payments).sleeps = [1, 2] ∧
        (create_pix_payment (some plan) uid newId outcomes
          payments).result =
          .error ("Failed to create PIX QR Code after 3 attempts: " ++
            e3)) ∧
    (∀ e1 d, outcomes 1 = .error e1 → outcomes 2 = .ok d →
      (create_pix_payment (some plan) uid newId outcomes payments).sleeps =
          [1] ∧
        (create_pix_payment (some plan) uid newId outcomes payments).db =
          payments ++ [⟨newId, uid, d.id, plan.price_brl_cents,
            plan.credits_amount, .PENDING, d.brcode, d.brcode_base64⟩]) := by
  refine ⟨rfl, ?_, rfl, rfl, rfl, ?_, ?_, ?_⟩
  · show (String.mk ((pixDescription plan.credits_amount).toList.take
      37)).data.length ≤ 37
    rw [show (String.mk ((pixDescription plan.credits_amount).toList.take
      37)).data = (pixDescription plan.credits_amount).toList.take 37
      from rfl]
    exact List.length_take_le 37 _
  · cases h : (pixAttempts outcomes pixAttemptIndices).1 <;>
      simp [create_pix_payment, h]
  · intro e1 e2 e3 h1 h2 h3
    refine ⟨?_, ?_, ?_⟩ <;>
      simp [create_pix_payment, pixAttempts, pixAttemptIndices,
        ABACATE_CREATE_RETRIES, List.range', h1, h2, h3]
    rfl
  · intro e1 d h1 h2
    simp [create_pix_payment, pixAttempts, pixAttemptIndices,
      ABACATE_CREATE_RETRIES, List.range', h1, h2]

/-- Witness for C6 at a concrete plan with every attempt timing out: no
payment is persisted and the sleeps are 1s then 2s. -/
theorem C6_pix_creation_witness :
    (create_pix_payment (some ⟨"pl1", "Basic", 5, 1000, true⟩) "u1" "p1"
        (fun _ => .error "timed out") []).db = [] ∧
      (create_pix_payment (some ⟨"pl1", "Basic", 5, 1000, true⟩) "u1" "p1"
        (fun _ => .error "timed out") []).sleeps = [1, 2] ∧
      (create_pix_payment (some ⟨"pl1", "Basic", 5, 1000, true⟩) "u1" "p1"
        (fun _ => .error "timed out") []).result =
        .error ("Failed to create PIX QR Code after 3 attempts: " ++
          "timed out") :=
  ((C6_pix_creation ⟨"pl1", "Basic", 5, 1000, true⟩ "u1" "p1"
    (fun _ => .error "timed out") []).2.2.2.2.2.2.1)
    "timed out" "timed out" "timed out" rfl rfl rfl

/-! ## Job pipeline orchestrator (src/app/routers/resume.py:37-147) -/

/-- A row of the `resume_jobs` table (src/app/models/job.py), restricted to
the fields the orchestrator writes. A job is created with status
`"pending"` and every other field unset (src/app/routers/resume.py:299-303). -/
structure JobRec where
  id : String
  user_id : String
  status : String
  error : Option String := none
  html_url : Option String := none
  pdf_url : Option String := none
  cover_url : Option String := none
deriving DecidableEq, Repr

/-- The artifact URLs in the dict returned by a (hypothetically)
successful `ResumeBuilder.build_resume`
(src/app/services/resume_builder.py:108-116). -/
structure BuildResult where
  html_url : String
  pdf_url : String
  cover_url : String
deriving DecidableEq, Repr

/-- The database state a pipeline run touches: the job row it was given
(`none` models `job not found`) and the users table. -/
structure PipeDb where
  job? : Option JobRec
  users : List UserRec
deriving DecidableEq, Repr

/-- Embeds `_run_resume_pipeline` (src/app/routers/resume.py:37-147). If the job
row is missing, log and return with no commit. Otherwise commit
`status = "processing"`; then run the try block (its outcome — the value of
`builder.build_resume(...)` or the exception raised by any stage — is the
`tryOutcome` parameter). On success set `completed` plus the three artifact
URLs, deduct one credit from the owner in a separate session, and commit.
On any exception set `failed`, store `str(e)` in `error`, and commit;
nothing is deducted and the artifact fields keep their prior value. The
second component is the list of committed status values, in commit order. -/
def run_resume_pipeline (db : PipeDb)
    (tryOutcome : Except String BuildResult) : PipeDb × List String :=
  match db.job? with
  | none => (db, [])
  | some job =>
    match tryOutcome with
    | .ok r =>
      let j2 := { job with
        status := "completed",
        html_url := some r.html_url,
        pdf_url := some r.pdf_url,
        cover_url := some r.cover_url }
      let users := (deduct_credit db.users job.user_id).1
      (⟨some j2, users⟩, ["processing", "completed"])
    | .error e =>
      let j2 := { job with status := "failed", error := some e }
      (⟨some j2, db.users⟩, ["processing", "failed"])

/-- Keyword binding of a Python call: every keyword must name a declared
parameter and every required parameter must be supplied. -/
def pythonKwargsBind (params required kwargs : List String) : Bool :=
  kwargs.all (fun k => params.contains k) &&
    required.all (fun p => kwargs.contains p)

/-- The parameters of `ResumeBuilder.build_resume`
(src/app/services/resume_builder.py:40-45): all three are required and
there is no `**kwargs`. -/
def build_resume_params : List String :=
  ["github_token", "linkedin_pdf_bytes", "job_id"]

/-- The keyword arguments `_run_resume_pipeline` passes to
`builder.build_resume` (src/app/routers/resume.py:107-115). -/
def pipeline_build_resume_kwargs : List String :=
  ["db", "job_data", "linkedin_data", "github_data", "platform_content",
    "language", "job_id"]

/-- The call `builder.build_resume(db=..., job_data=..., ...)`
(src/app/routers/resume.py:107-115): Python evaluates keyword binding
before entering the body, raising `TypeError` when it fails, whatever the
body would have produced. -/
def call_build_resume (body : Except String BuildResult) :
    Except String BuildResult :=
  if pythonKwargsBind build_resume_params build_resume_params
      pipeline_build_resume_kwargs then body
  else .error ("build_resume() got an unexpected keyword argument: db")

/-- The try block of `_run_resume_pipeline` in `linkedin` (profile-only)
mode with no job URL (src/app/routers/resume.py:64-115): scrape the
profile, then call `builder.build_resume`. -/
def linkedin_pipeline_try (scrape : Except String Unit)
    (body : Except String BuildResult) : Except String BuildResult :=
  match scrape with
  | .error e => .error e
  | .ok _ => call_build_resume body

/-- C1 (evaluation of the code at the claimed scenario): with a user
holding exactly one credit and a pending profile-only job, and a profile
scrape that succeeds, the pipeline marks the job `failed` — not
`completed` — with no credit deducted and no artifact URLs, for every
possible behaviour of the `build_resume` body, because the keyword
arguments of the orchestrator (src/app/routers/resume.py:107-115) do not bind to the
parameters of `ResumeBuilder.build_resume`
(src/app/services/resume_builder.py:40-45). -/
theorem C1_pipeline_call_mismatch :
    pythonKwargsBind build_resume_params build_resume_params
        pipeline_build_resume_kwargs = false ∧
    ∀ body : Except String BuildResult,
      (run_resume_pipeline
          ⟨some ⟨"j1", "u1", "pending", none, none, none, none⟩,
            [⟨"u1", 1⟩]⟩
          (linkedin_pipeline_try (.ok ()) body)).1 =
        ⟨some ⟨"j1", "u1", "failed",
            some "build_resume() got an unexpected keyword argument: db",
            none, none, none⟩,
          [⟨"u1", 1⟩]⟩ := by
  refine ⟨by decide, fun body => ?_⟩
  have hcall : linkedin_pipeline_try (.ok ()) body =
      .error "build_resume() got an unexpected keyword argument: db" := by
    simp [linkedin_pipeline_try, call_build_resume, pythonKwargsBind,
      build_resume_params, pipeline_build_resume_kwargs]
  rw [hcall]
  rfl

/-- C2: whenever a pipeline stage raises (in particular the AI generation
stage on unparseable output), the orchestrator converts the exception into
a committed `failed` status with the exception text stored on the job
(non-empty whenever the exception text is), deducts no credit, and leaves
the artifact URL fields empty; the run still terminates normally with its
two commits — the exception is never propagated
(src/app/routers/resume.py:142-147). -/
theorem C2_stage_exception_contained (users : List UserRec) (job : JobRec)
    (msg : String) (hmsg : msg ≠ "")
    (hhtml : job.html_url = none) (hpdf : job.pdf_url = none)
    (hcover : job.cover_url = none) :
    (run_resume_pipeline ⟨some job, users⟩ (.error msg)).1.job? =
        some { job with status := "failed", error := some msg } ∧
      { job with status := "failed", error := some msg }.error ≠ some "" ∧
      { job with status := "failed", error := some msg }.html_url = none ∧
      { job with status := "failed", error := some msg }.pdf_url = none ∧
      { job with status := "failed", error := some msg }.cover_url = none ∧
      (run_resume_pipeline ⟨some job, users⟩ (.error msg)).1.users =
        users ∧
      (run_resume_pipeline ⟨some job, users⟩ (.error msg)).2 =
        ["processing", "failed"] := by
  refine ⟨rfl, by simp [hmsg], by simp [hhtml], by simp [hpdf],
    by simp [hcover], rfl, rfl⟩

/-- The `ValueError` text raised by `AIAgent.generate_resume_data` when the
output of the model cannot be parsed (src/app/services/ai_agent.py:379-382). -/
def ai_invalid_data_message (e : String) : String :=
  "AI returned invalid resume data: " ++ e ++
    ". This may be a transient issue - try regenerating."

/-- Witness for C2: the AI generation stage raising its unparseable-output
`ValueError` on a fresh pending job; the job fails with that non-empty
text, the balance is untouched and the artifacts stay empty. -/
theorem C2_stage_exception_contained_witness :
    (run_resume_pipeline
        ⟨some ⟨"j1", "u1", "pending", none, none, none, none⟩,
          [⟨"u1", 1⟩]⟩
        (.error (ai_invalid_data_message
          "Expecting value: line 1 column 1 (char 0)"))).1.users =
        [⟨"u1", 1⟩] ∧
      (run_resume_pipeline
        ⟨some ⟨"j1", "u1", "pending", none, none, none, none⟩,
          [⟨"u1", 1⟩]⟩
        (.error (ai_invalid_data_message
          "Expecting value: line 1 column 1 (char 0)"))).2 =
        ["processing", "failed"] :=
  let h := C2_stage_exception_contained [⟨"u1", 1⟩]
    ⟨"j1", "u1", "pending", none, none, none, none⟩
    (ai_invalid_data_message "Expecting value: line 1 column 1 (char 0)")
    (by decide) rfl rfl rfl
  ⟨h.2.2.2.2.2.1, h.2.2.2.2.2.2⟩

/-- The edges of the job status state machine claimed by the spec. -/
def allowedStep : String → String → Bool
  | "pending", "processing" => true
  | "processing", "completed" => true
  | "processing", "failed" => true
  | _, _ => false

/-- Terminal job statuses. -/
def isTerminalStatus (s : String) : Bool :=
  s == "completed" || s == "failed"

/-- C5: every status value a pipeline run commits follows the machine
`pending → processing → (completed | failed)` starting from the `pending`
status the job was created with (src/app/routers/resume.py:299-303), so no
job reaches a terminal state without first being set to `processing`, and
no committed status ever follows a terminal one
(src/app/routers/resume.py:55-147). -/
theorem C5_status_state_machine (db : PipeDb)
    (outcome : Except String BuildResult) :
    List.Chain (fun a b => allowedStep a b = true) "pending"
        (run_resume_pipeline db outcome).2 ∧
      ∀ s ∈ (run_resume_pipeline db outcome).2.dropLast,
        isTerminalStatus s = false := by
  rcases db with ⟨job?, users⟩
  cases job? with
  | none =>
    cases outcome <;> exact ⟨List.Chain.nil, by simp [run_resume_pipeline]⟩
  | some job =>
    cases outcome with
    | ok r =>
      refine ⟨?_, ?_⟩
      · show List.Chain _ "pending" ["processing", "completed"]
        exact List.Chain.cons (by decide)
          (List.Chain.cons (by decide) List.Chain.nil)
      · show ∀ s ∈ (["processing", "completed"] : List String).dropLast, _
        simp [isTerminalStatus]
    | error e =>
      refine ⟨?_, ?_⟩
      · show List.Chain _ "pending" ["processing", "failed"]
        exact List.Chain.cons (by decide)
          (List.Chain.cons (by decide) List.Chain.nil)
      · show ∀ s ∈ (["processing", "failed"] : List String).dropLast, _
        simp [isTerminalStatus]

/-! ## Job submission handler (src/app/routers/resume.py:204-335) -/

/-- Truthiness of an optional string in Python: `None` and `""` are falsy. -/
def pyFalsy (o : Option String) : Bool :=
  match o with
  | none => true
  | some s => s == ""

/-- The form fields of `POST /api/v1/resume/generate`
(src/app/routers/resume.py:206-213). -/
structure SubmitRequest where
  linkedin_job_url : Option String
  language : String
  platform_content : String
  github_token : Option String
deriving Repr

/-- An `HTTPException` response. -/
structure HttpError where
  status_code : Nat
  detail : String
deriving DecidableEq, Repr

/-- The tables the submission handler touches. -/
structure SubmitDb where
  users : List UserRec
  jobs : List JobRec
deriving Repr

/-- How a submission ends without a created-job response: an
`HTTPException` the handler raises deliberately, or an uncaught exception,
which FastAPI turns into a bare 500 response. -/
inductive SubmitReject where
  | http (e : HttpError)
  | crash (msg : String)
deriving DecidableEq, Repr

/-- The observable outcome of a submission: the database afterwards,
whether the background pipeline task was launched (the only place any
external call is made), and the created job, HTTP error, or crash. -/
structure SubmitOutcome where
  db : SubmitDb
  launched : Bool
  result : Except SubmitReject JobRec
deriving Repr

/-- The `AttributeError` raised whenever `user.linkedin_url` is evaluated:
the `User` model (src/app/models/user.py:19-38) defines no such attribute,
it is not a mapped column, and the only code that would set it (the user
router, src/app/routers/user.py:74-75) is never registered
(src/app/main.py:106-109), so no loaded `User` instance ever carries it. -/
def linkedin_url_attribute_error : String :=
  "AttributeError: User object has no attribute linkedin_url"

/-- Embeds `generate_resume` (src/app/routers/resume.py:204-335): validate
the job URL, language, platform and token; look the user up (404 when
missing). For `linkedin`/`mixed` modes the guard at
src/app/routers/resume.py:277 evaluates `user.linkedin_url`, which raises
`AttributeError` — before the credit check at resume.py:288-297 is
reached. In `github` mode the `and` short-circuits past the attribute
read, so the 402 insufficient-credit gate runs; with enough credits the
`pending` job row is inserted and committed (resume.py:299-307), and then
the logging call at resume.py:310-318 evaluates `user.linkedin_url` and
raises the same `AttributeError` before `asyncio.create_task`
(resume.py:320) ever runs. The URL validator (a regex,
src/app/services/linkedin_scraper.py:95-98) is a collaborator passed as a
function. -/
def generate_resume (validateJobUrl : String → Bool) (req : SubmitRequest)
    (user_id : String) (db : SubmitDb) (newJobId : String) :
    SubmitOutcome :=
  if (match req.linkedin_job_url with
      | some u => !(validateJobUrl u)
      | none => false) then
    ⟨db, false, .error (.http ⟨400,
      "Invalid LinkedIn job URL. Please provide a valid LinkedIn job URL."⟩)⟩
  else if !(["en", "pt-br"].contains req.language) then
    ⟨db, false, .error (.http ⟨400,
      "Unsupported language. Supported languages: en, pt-br"⟩)⟩
  else if !(["linkedin", "github", "mixed"].contains
      req.platform_content) then
    ⟨db, false, .error (.http ⟨400,
      "Invalid platform_content. Supported: linkedin, github, mixed"⟩)⟩
  else if (["github", "mixed"].contains req.platform_content) &&
      pyFalsy req.github_token then
    ⟨db, false, .error (.http ⟨400,
      "GitHub token is required for github and mixed platform modes"⟩)⟩
  else
    match db.users.find? (fun u => u.id == user_id) with
    | none => ⟨db, false, .error (.http ⟨404, "User not found"⟩)⟩
    | some user =>
      if req.platform_content != "github" then
        ⟨db, false, .error (.crash linkedin_url_attribute_error)⟩
      else if user.credits < 1 then
        ⟨db, false, .error (.http ⟨402,
          "Insufficient credits. Please purchase credits to generate a resume."⟩)⟩
      else
        let job : JobRec := ⟨newJobId, user_id, "pending", none, none,
          none, none⟩
        ⟨⟨db.users, db.jobs ++ [job]⟩, false,
          .error (.crash linkedin_url_attribute_error)⟩

/-- C8 (evaluation of the code at the failing input): a profile-only
submission by an existing zero-credit user is indeed rejected with no job
row created and no external call made — but by the uncaught
`AttributeError` from the missing `User.linkedin_url` attribute
(src/app/routers/resume.py:277, src/app/models/user.py:19-38), raised
before the credit check at src/app/routers/resume.py:288-297 ever runs,
not by the insufficient-credit response the claim names; only a
github-mode zero-credit submission reaches that 402 (and then also with
nothing created or launched). -/
theorem C8_attribute_error_before_credit_check :
    generate_resume (fun _ => true) ⟨none, "en", "linkedin", none⟩ "u1"
        ⟨[⟨"u1", 0⟩], []⟩ "j1" =
      ⟨⟨[⟨"u1", 0⟩], []⟩, false,
        .error (.crash linkedin_url_attribute_error)⟩ ∧
    generate_resume (fun _ => true) ⟨none, "en", "github", some "tok"⟩
        "u1" ⟨[⟨"u1", 0⟩], []⟩ "j1" =
      ⟨⟨[⟨"u1", 0⟩], []⟩, false,
        .error (.http ⟨402,
          "Insufficient credits. Please purchase credits to generate a resume."⟩)⟩ :=
  ⟨rfl, rfl⟩

/-! ## Webhook endpoint (src/app/routers/payment.py:97-137) -/

/-- The settings the webhook path reads (src/app/config.py:22-24). -/
structure WebhookSettings where
  abacatepay_webhook_secret : String
  abacatepay_public_key : String
deriving Repr

/-- Embeds `PaymentService.verify_webhook_signature`
(src/app/services/payment.py:291-311): with no configured public key,
verification is skipped (returns `True`); otherwise the base64 HMAC-SHA256
digest of the raw body under the key is compared with the header value.
The digest comparison is the collaborator `hmacMatches key raw signature`. -/
def verify_webhook_signature (hmacMatches : String → String → String → Bool)
    (public_key : String) (raw_body signature : String) : Bool :=
  if public_key == "" then true
  else hmacMatches public_key raw_body signature

/-- The JSON payload fields the webhook reads: `event` and
`data.pixQrCode.id` (src/app/routers/payment.py:119-126). -/
structure WebhookPayload where
  event : Option String
  pix_id : Option String
deriving Repr

/-- A webhook request body: the raw bytes (signed material) and the result
of `json.loads` (`none` models a JSON decode error). -/
structure WebhookBody where
  raw : String
  parsed : Option WebhookPayload
deriving Repr

/-- What a run of the webhook handler did: the payment/ledger state
afterwards, whether `verify_webhook_signature` was invoked at all, and the
HTTP outcome (`received`/`processed` flags, or the exception). -/
structure WebhookOutcome where
  state : PayState
  verifyCalled : Bool
  response : Except HttpError (Bool × Bool)
deriving Repr

/-- Embeds `abacatepay_webhook` (src/app/routers/payment.py:97-137): check the
`webhookSecret` query parameter; read the `X-Webhook-Signature` header
with default `""`; call `verify_webhook_signature` only when that value is
non-empty (`if signature and not ...`); parse the JSON; ignore events
other than `billing.paid`; require `data.pixQrCode.id`; reconcile the
matching payment through `process_webhook_payment`. -/
def abacatepay_webhook (hmacMatches : String → String → String → Bool)
    (cfg : WebhookSettings) (secretParam : Option String)
    (signatureHeader : Option String) (body : WebhookBody)
    (st : PayState) : WebhookOutcome :=
  if secretParam ≠ some cfg.abacatepay_webhook_secret then
    ⟨st, false, .error ⟨401, "Invalid webhook secret"⟩⟩
  else
    let signature := signatureHeader.getD ""
    let verifyCalled := signature != ""
    if signature != "" && !(verify_webhook_signature hmacMatches
        cfg.abacatepay_public_key body.raw signature) then
      ⟨st, verifyCalled, .error ⟨401, "Invalid webhook signature"⟩⟩
    else
      match body.parsed with
      | none => ⟨st, verifyCalled, .error ⟨400, "Invalid JSON payload"⟩⟩
      | some p =>
        if p.event ≠ some "billing.paid" then
          ⟨st, verifyCalled, .ok (true, false)⟩
        else if pyFalsy p.pix_id then
          ⟨st, verifyCalled, .error ⟨400, "Missing payment ID"⟩⟩
        else if st.payment.abacatepay_id == p.pix_id.getD "" then
          ⟨process_webhook_payment st, verifyCalled, .ok (true, true)⟩
        else
          ⟨st, verifyCalled, .ok (true, false)⟩

/-- C9: a webhook request carrying the correct `webhookSecret` whose
`X-Webhook-Signature` header is absent or empty performs no HMAC
verification at all — for any configured public key and any digest
function, including one that rejects everything, the outcome is identical
— and it proceeds to process the payload: a parseable `billing.paid`
payload naming the payment is reconciled
(src/app/routers/payment.py:107-112,
src/app/services/payment.py:291-311). -/
theorem C9_empty_signature_skips_verification
    (hmacA hmacB : String → String → String → Bool)
    (cfg : WebhookSettings) (sig : Option String) (body : WebhookBody)
    (st : PayState) (hsig : sig = none ∨ sig = some "") :
    (abacatepay_webhook hmacA cfg (some cfg.abacatepay_webhook_secret)
        sig body st).verifyCalled = false ∧
      abacatepay_webhook hmacA cfg (some cfg.abacatepay_webhook_secret)
          sig body st =
        abacatepay_webhook hmacB cfg (some cfg.abacatepay_webhook_secret)
          sig body st ∧
      (∀ p, body.parsed = some p → p.event = some "billing.paid" →
        p.pix_id = some st.payment.abacatepay_id →
        st.payment.abacatepay_id ≠ "" →
        (abacatepay_webhook hmacA cfg
            (some cfg.abacatepay_webhook_secret) sig body st).state =
          process_webhook_payment st ∧
        (abacatepay_webhook hmacA cfg
            (some cfg.abacatepay_webhook_secret) sig body st).response =
          .ok (true, true)) := by
  have hempty : sig.getD "" = "" := by
    rcases hsig with h | h <;> simp [h]
  refine ⟨?_, ?_, ?_⟩
  · cases hb : body.parsed with
    | none => simp [abacatepay_webhook, hempty, hb]
    | some p =>
      simp [abacatepay_webhook, hempty, hb]
      split_ifs <;> rfl
  · simp [abacatepay_webhook, hempty]
  · intro p hp hev hid hne
    constructor <;>
      simp [abacatepay_webhook, hempty, hp, hev, hid, pyFalsy, hne]

/-- Witness for C9: correct secret, absent signature header, an
all-rejecting digest function, a configured public key, and a paid
payload for the pending payment: verification is skipped and the payment
is reconciled, crediting the user. -/
theorem C9_empty_signature_skips_verification_witness :
    (abacatepay_webhook (fun _ _ _ => false) ⟨"sec", "pubkey"⟩
        (some "sec") none
        ⟨"rawbody", some ⟨some "billing.paid", some "ab1"⟩⟩
        ⟨⟨"p1", "u1", "ab1", 1000, 3, .PENDING, "br", "b64"⟩,
          [⟨"u1", 5⟩]⟩).verifyCalled = false ∧
      (abacatepay_webhook (fun _ _ _ => false) ⟨"sec", "pubkey"⟩
        (some "sec") none
        ⟨"rawbody", some ⟨some "billing.paid", some "ab1"⟩⟩
        ⟨⟨"p1", "u1", "ab1", 1000, 3, .PENDING, "br", "b64"⟩,
          [⟨"u1", 5⟩]⟩).state =
        process_webhook_payment
          ⟨⟨"p1", "u1", "ab1", 1000, 3, .PENDING, "br", "b64"⟩,
            [⟨"u1", 5⟩]⟩ :=
  let h := C9_empty_signature_skips_verification (fun _ _ _ => false)
    (fun _ _ _ => false) ⟨"sec", "pubkey"⟩ none
    ⟨"rawbody", some ⟨some "billing.paid", some "ab1"⟩⟩
    ⟨⟨"p1", "u1", "ab1", 1000, 3, .PENDING, "br", "b64"⟩,
      [⟨"u1", 5⟩]⟩ (Or.inl rfl)
  ⟨h.1, (h.2.2 ⟨some "billing.paid", some "ab1"⟩ rfl rfl rfl
    (by decide)).1⟩

/-! ## Route dispatch on the payment router
(src/app/routers/payment.py:23-94) -/

/-- One segment of a route path pattern: a literal or a `{name}`
parameter (which matches any non-empty slash-free segment). -/
inductive Seg where
  | lit (s : String)
  | param (name : String)
deriving DecidableEq, Repr

/-- A registered route: HTTP method, path pattern (relative to the
router prefix `/api/v1/payment`), the handler it dispatches to, and
which path parameters the handler annotates as `UUID`. -/
structure Route where
  method : String
  segs : List Seg
  handlerName : String
  uuidParams : List String
deriving DecidableEq, Repr

def segMatches : Seg → String → Bool
  | .lit s, x => s == x
  | .param _, x => x != ""

def pathMatches : List Seg → List String → Bool
  | [], [] => true
  | sg :: ss, x :: xs => segMatches sg x && pathMatches ss xs
  | _, _ => false

/-- Starlette tries routes in declaration order and dispatches to the
first full match. -/
def firstMatch (routes : List Route) (method : String)
    (path : List String) : Option Route :=
  routes.find? (fun r => r.method == method && pathMatches r.segs path)

/-- The values a matching path binds to the parameters of the pattern. -/
def boundParams : List Seg → List String → List (String × String)
  | .param n :: ss, x :: xs => (n, x) :: boundParams ss xs
  | .lit _ :: ss, _ :: xs => boundParams ss xs
  | _, _ => []

def isHexDigit (c : Char) : Bool :=
  c.isDigit || (97 ≤ c.toNat && c.toNat ≤ 102) ||
    (65 ≤ c.toNat && c.toNat ≤ 70)

/-- Pydantic validation of a `UUID`-annotated path parameter: 36
characters, hyphens at positions 8, 13, 18 and 23, hex digits elsewhere. -/
def isValidUUID (s : String) : Bool :=
  s.length == 36 &&
    (List.range 36).all (fun i =>
      let c := s.toList.getD i ' '
      if i = 8 ∨ i = 13 ∨ i = 18 ∨ i = 23 then c == '-' else isHexDigit c)

/-- FastAPI validates the typed path parameters of the matched route before
invoking the handler; a failure yields a 422 and the handler never runs. -/
def validateRoute (r : Route) (path : List String) : Bool :=
  (boundParams r.segs path).all (fun pv =>
    !(r.uuidParams.contains pv.1) || isValidUUID pv.2)

/-- The handler actually invoked for a request, `none` when no route
matches (404) or parameter validation fails (422). -/
def dispatch (routes : List Route) (method : String)
    (path : List String) : Option String :=
  match firstMatch routes method path with
  | none => none
  | some r => if validateRoute r path then some r.handlerName else none

/-- The routes of the payment router in declaration order
(src/app/routers/payment.py:26, 43, 67, 88, 97): `GET /{payment_id}` is
declared before `GET /balance`, and its `payment_id` is annotated `UUID`
(src/app/routers/payment.py:67-69). -/
def payment_routes : List Route :=
  [⟨"GET", [.lit "plans"], "get_credit_plans", []⟩,
   ⟨"POST", [.lit "create"], "create_payment", []⟩,
   ⟨"GET", [.param "payment_id"], "get_payment_status", ["payment_id"]⟩,
   ⟨"GET", [.lit "balance"], "get_credit_balance", []⟩,
   ⟨"POST", [.lit "webhook"], "abacatepay_webhook", []⟩]

/-- C10: `GET /api/v1/payment/balance` is matched by the earlier-declared
`GET /{payment_id}` route and rejected by the UUID validation of
`payment_id` (no handler runs), and no request whatsoever dispatches to
`get_credit_balance` (src/app/routers/payment.py:67-94). -/
theorem C10_balance_route_shadowed :
    firstMatch payment_routes "GET" ["balance"] =
      some ⟨"GET", [.param "payment_id"], "get_payment_status",
        ["payment_id"]⟩ ∧
    dispatch payment_routes "GET" ["balance"] = none ∧
    ∀ method path,
      dispatch payment_routes method path ≠ some "get_credit_balance" := by
  refine ⟨by decide, by decide, ?_⟩
  intro method path hcon
  have hmatch : ∀ r, firstMatch payment_routes method path = some r →
      r.handlerName ≠ "get_credit_balance" := by
    intro r hm
    match path with
    | [] =>
      simp [firstMatch, payment_routes, List.find?, pathMatches] at hm
    | x :: y :: rest =>
      simp [firstMatch, payment_routes, List.find?, pathMatches,
        segMatches] at hm
    | [x] =>
      simp only [firstMatch, payment_routes, List.find?_cons] at hm
      repeat' split at hm
      all_goals first
        | exact Option.noConfusion hm
        | (injection hm with h2; rw [← h2]; decide)
        | simp_all [pathMatches, segMatches]
  cases hm : firstMatch payment_routes method path with
  | none => simp [dispatch, hm] at hcon
  | some r =>
    simp only [dispatch, hm] at hcon
    by_cases hv : validateRoute r path = true
    · rw [if_pos hv] at hcon
      injection hcon with h
      exact hmatch r hm h
    · rw [if_neg hv] at hcon
      exact Option.noConfusion hcon

end FlashResume
